import Mathlib

/-!
Shallow embedding of the client-management-api core
(src/src/services/clientService.ts, src/models/Client.ts, route glue),
together with theorems settling the frozen claims about it.

Conventions of the embedding:
* A MongoDB collection is a `List IClient` (insertion order); `findOne`,
  `deleteOne` and `findOneAndUpdate` act on the first matching element,
  `insertOne` appends.
* `Date` timestamps are naturals (milliseconds).  Each call site of
  `new Date()` in the source receives its own explicit clock parameter,
  so distinct `new Date()` calls may observe distinct instants.
* Fallible service functions return `Except SvcError`; MongoDB's
  `new ObjectId(string)` throwing `BSONError` on a malformed identifier
  is modelled by `parseObjectId` returning `none`, which the service
  functions turn into `.error .bsonError` (the source catches and
  rethrows such errors unchanged).
* The zod schema `ClientValidationSchema` is modelled field by field;
  zod's behaviour of ignoring unknown keys (such as `createdAt` inside
  an update payload, which the source then spreads into `$set` anyway)
  is reflected by validation not inspecting the `createdAt`/`updatedAt`
  components of a patch while `applySet` does apply them.
-/

/-- The stored client document, after `IClient` of src/models/Client.ts.
`id` is the `_id` field (canonical lower-case 24-hex ObjectId string);
`whatsappGroupName` is the one optional schema field.  `bid`, `uid`,
`mtcGroupID` are `z.number()` fields, modelled as integers. -/
structure IClient where
  id : String
  whatsappGroupName : Option String
  bid : Int
  uid : Int
  mtcGroupID : Int
  reporterName : String
  reporterPhone : String
  compId : String
  userName : String
  password : String
  appGuid : String
  createdAt : Nat
  updatedAt : Nat
deriving DecidableEq, Repr

/-- A `Partial<IClient>` value (create candidate or update payload):
every field optional, `none` meaning the key is absent.  `createdAt`
and `updatedAt` are present because `Partial<IClient>` includes them
and `updateClient` spreads the raw payload into `$set`. -/
structure ClientPatch where
  whatsappGroupName : Option String := none
  bid : Option Int := none
  uid : Option Int := none
  mtcGroupID : Option Int := none
  reporterName : Option String := none
  reporterPhone : Option String := none
  compId : Option String := none
  userName : Option String := none
  password : Option String := none
  appGuid : Option String := none
  createdAt : Option Nat := none
  updatedAt : Option Nat := none
deriving DecidableEq, Repr

/-- The regex `^\+972[0-9]{8,9}$` of ClientValidationSchema. -/
def isIsraeliPhone (p : String) : Bool :=
  match p.toList with
  | '+' :: '9' :: '7' :: '2' :: rest =>
      (rest.length == 8 || rest.length == 9) && rest.all Char.isDigit
  | _ => false

/-- zod's default message for a missing required field. -/
def requiredMsg : String := "Required"

/-- The custom message attached to the `reporterPhone` regex check. -/
def phoneMsg : String := "Phone must be in Israeli format (+972XXXXXXXXX)"

/-- Error messages contributed by one required field. -/
def reqCheck (o : Option α) : List String :=
  match o with
  | none => [requiredMsg]
  | some _ => []

/-- Error messages contributed by `reporterPhone` under the full schema:
required, and when present it must match the Israeli-format regex. -/
def phoneCheck (o : Option String) : List String :=
  match o with
  | none => [requiredMsg]
  | some p => if isIsraeliPhone p then [] else [phoneMsg]

/-- `ClientValidationSchema.safeParse`: the per-field error messages, in
schema field order (`whatsappGroupName` is optional and contributes
none; unknown keys such as `createdAt` are ignored by zod).  Parsing
succeeds iff this list is empty. -/
def clientValidationErrors (c : ClientPatch) : List String :=
  reqCheck c.bid ++ reqCheck c.uid ++ reqCheck c.mtcGroupID ++
    reqCheck c.reporterName ++ phoneCheck c.reporterPhone ++
    reqCheck c.compId ++ reqCheck c.userName ++ reqCheck c.password ++
    reqCheck c.appGuid

/-- `ClientValidationSchema.partial().safeParse`: required-ness is
waived, only format checks on present fields remain, i.e. the
`reporterPhone` regex. -/
def patchValidationErrors (c : ClientPatch) : List String :=
  match c.reporterPhone with
  | none => []
  | some p => if isIsraeliPhone p then [] else [phoneMsg]

/-- Service-level error, after the `throw` sites of clientService.ts. -/
inductive SvcError where
  /-- "Client validation failed: ..." with the joined zod messages. -/
  | validationError (msgs : List String)
  /-- `BSONError` thrown by `new ObjectId(...)` on a malformed string. -/
  | bsonError
  /-- "Client not found with ID: ..." from `updateClient`. -/
  | notFound (id : String)
deriving DecidableEq, Repr

deriving instance DecidableEq for Except

/-- ASCII lower-casing of one character (sufficient for hex strings). -/
def asciiLower (c : Char) : Char :=
  if 'A' ≤ c && c ≤ 'Z' then Char.ofNat (c.toNat + 32) else c

/-- ASCII lower-casing of a string. -/
def strLower (s : String) : String :=
  String.mk (s.toList.map asciiLower)

/-- Hexadecimal characters, as accepted by the `ObjectId` constructor. -/
def isHexChar (c : Char) : Bool :=
  c.isDigit || ('a' ≤ c && c ≤ 'f') || ('A' ≤ c && c ≤ 'F')

/-- A well-formed ObjectId string: exactly 24 hexadecimal characters. -/
def isValidObjectIdString (s : String) : Bool :=
  s.length == 24 && s.toList.all isHexChar

/-- `new ObjectId(s)`: `none` models the thrown `BSONError`; a valid
string is normalised to lower case (ObjectId equality is on the
underlying bytes, hence hex-case-insensitive). -/
def parseObjectId (s : String) : Option String :=
  if isValidObjectIdString s then some (strLower s) else none

/-- The document inserted (and, with a second clock sample, returned) by
`createClient`: `{...clientData, createdAt: new Date(), updatedAt: new
Date()}` plus the assigned `_id`.  Reached only after full validation,
so the `getD` defaults never fire on the required fields. -/
def mkStoredClient (c : ClientPatch) (newId : String) (now : Nat) : IClient :=
  { id := newId
    whatsappGroupName := c.whatsappGroupName
    bid := c.bid.getD 0
    uid := c.uid.getD 0
    mtcGroupID := c.mtcGroupID.getD 0
    reporterName := c.reporterName.getD ""
    reporterPhone := c.reporterPhone.getD ""
    compId := c.compId.getD ""
    userName := c.userName.getD ""
    password := c.password.getD ""
    appGuid := c.appGuid.getD ""
    createdAt := now
    updatedAt := now }

/-- `createClient`: validate against the full schema, then insert
`{...clientData, createdAt, updatedAt}`, then return a reconstruction
`{...clientData, _id, createdAt: new Date(), updatedAt: new Date()}`
whose two dates are sampled afresh (`nowRet`), after the insert's
sample (`nowIns`).  Returns the result together with the collection
after the call. -/
def createClient (clientData : ClientPatch) (newId : String)
    (nowIns nowRet : Nat) (s : List IClient) :
    Except SvcError IClient × List IClient :=
  match clientValidationErrors clientData with
  | [] =>
      (.ok (mkStoredClient clientData newId nowRet),
        s ++ [mkStoredClient clientData newId nowIns])
  | m :: ms => (.error (.validationError (m :: ms)), s)

/-- `getClient`: `findOne({_id: new ObjectId(clientId)})`; the document
if found, `none` otherwise; a malformed id makes `new ObjectId` throw. -/
def getClient (clientId : String) (s : List IClient) :
    Except SvcError (Option IClient) :=
  match parseObjectId clientId with
  | none => .error .bsonError
  | some oid => .ok (s.find? (fun d => d.id == oid))

/-- Remove the first element satisfying `p`; also report
`deletedCount`. -/
def removeFirst (p : α → Bool) : List α → List α × Nat
  | [] => ([], 0)
  | x :: xs =>
    if p x then (xs, 1)
    else ((removeFirst p xs).1.cons x, (removeFirst p xs).2)

/-- `deleteClient`: `deleteOne({_id: new ObjectId(clientId)})`, result
`deletedCount > 0`. -/
def deleteClient (clientId : String) (s : List IClient) :
    Except SvcError Bool × List IClient :=
  match parseObjectId clientId with
  | none => (.error .bsonError, s)
  | some oid =>
    (.ok (decide (0 < (removeFirst (fun d => d.id == oid) s).2)),
      (removeFirst (fun d => d.id == oid) s).1)

/-- `$set` semantics for an optionally-valued document field. -/
def setOptOpt (u old : Option α) : Option α :=
  match u with
  | some v => some v
  | none => old

/-- The `$set {...updateData, updatedAt: new Date()}` document applied
to one matching record: every key present in the payload is written
(including a `createdAt` key, which zod ignored but the spread kept),
and `updatedAt` is overwritten with the fresh date regardless of the
payload. -/
def applySet (u : ClientPatch) (now : Nat) (d : IClient) : IClient :=
  { id := d.id
    whatsappGroupName := setOptOpt u.whatsappGroupName d.whatsappGroupName
    bid := u.bid.getD d.bid
    uid := u.uid.getD d.uid
    mtcGroupID := u.mtcGroupID.getD d.mtcGroupID
    reporterName := u.reporterName.getD d.reporterName
    reporterPhone := u.reporterPhone.getD d.reporterPhone
    compId := u.compId.getD d.compId
    userName := u.userName.getD d.userName
    password := u.password.getD d.password
    appGuid := u.appGuid.getD d.appGuid
    createdAt := u.createdAt.getD d.createdAt
    updatedAt := now }

/-- Apply `f` to the first element satisfying `p`; also return the
updated element (`findOneAndUpdate` with `returnDocument: 'after'`). -/
def updateFirst (p : α → Bool) (f : α → α) : List α → List α × Option α
  | [] => ([], none)
  | x :: xs =>
    if p x then (f x :: xs, some (f x))
    else ((updateFirst p f xs).1.cons x, (updateFirst p f xs).2)

/-- `updateClient`: partial validation, then
`findOneAndUpdate({_id: new ObjectId(clientId)}, {$set: {...updateData,
updatedAt: new Date()}}, {returnDocument: 'after'})`; throws "Client
not found" when nothing matched. -/
def updateClient (clientId : String) (updateData : ClientPatch)
    (now : Nat) (s : List IClient) :
    Except SvcError IClient × List IClient :=
  match patchValidationErrors updateData with
  | m :: ms => (.error (.validationError (m :: ms)), s)
  | [] =>
    match parseObjectId clientId with
    | none => (.error .bsonError, s)
    | some oid =>
      match (updateFirst (fun d => d.id == oid) (applySet updateData now) s).2 with
      | none =>
          (.error (.notFound clientId),
            (updateFirst (fun d => d.id == oid) (applySet updateData now) s).1)
      | some d =>
          (.ok d,
            (updateFirst (fun d => d.id == oid) (applySet updateData now) s).1)

/-- A BSON value as far as sorting is concerned; the constructors are
listed in BSON comparison order (null below numbers below strings
below ObjectIds below dates). -/
inductive BsonValue where
  | vNull
  | vInt (n : Int)
  | vStr (s : String)
  | vOid (s : String)
  | vDate (t : Nat)
deriving DecidableEq, Repr

/-- BSON type rank used for cross-type comparison. -/
def BsonValue.rank : BsonValue → Nat
  | .vNull => 0
  | .vInt _ => 1
  | .vStr _ => 2
  | .vOid _ => 3
  | .vDate _ => 4

/-- BSON `≤`: by type rank, then by natural order within a type. -/
def bsonLe (a b : BsonValue) : Bool :=
  match a, b with
  | .vInt m, .vInt n => m ≤ n
  | .vStr x, .vStr y => !decide (y < x)
  | .vOid x, .vOid y => !decide (y < x)
  | .vDate m, .vDate n => m ≤ n
  | _, _ => a.rank ≤ b.rank

/-- Dynamic field access used by the `{[sortBy]: ±1}` sort document; a
field name not present in the document sorts as BSON null. -/
def IClient.fieldValue (d : IClient) : String → BsonValue
  | "_id" => .vOid d.id
  | "whatsappGroupName" =>
      match d.whatsappGroupName with
      | none => .vNull
      | some g => .vStr g
  | "bid" => .vInt d.bid
  | "uid" => .vInt d.uid
  | "mtcGroupID" => .vInt d.mtcGroupID
  | "reporterName" => .vStr d.reporterName
  | "reporterPhone" => .vStr d.reporterPhone
  | "compId" => .vStr d.compId
  | "userName" => .vStr d.userName
  | "password" => .vStr d.password
  | "appGuid" => .vStr d.appGuid
  | "createdAt" => .vDate d.createdAt
  | "updatedAt" => .vDate d.updatedAt
  | _ => .vNull

/-- Insert into a sorted list (stable: equal keys keep arrival order). -/
def insertLe (le : α → α → Bool) (x : α) : List α → List α
  | [] => [x]
  | y :: ys => if le y x then y :: insertLe le x ys else x :: y :: ys

/-- Stable insertion sort modelling the cursor's `.sort(...)`. -/
def sortListLe (le : α → α → Bool) : List α → List α
  | [] => []
  | x :: xs => insertLe le x (sortListLe le xs)

/-- The cursor sort for `{[sortBy]: sortOrder === 'desc' ? -1 : 1}`. -/
def sortClients (sortBy sortOrder : String) (s : List IClient) :
    List IClient :=
  if sortOrder == "desc" then
    sortListLe (fun a b => bsonLe (b.fieldValue sortBy) (a.fieldValue sortBy)) s
  else
    sortListLe (fun a b => bsonLe (a.fieldValue sortBy) (b.fieldValue sortBy)) s

/-- The options object accepted by `listClients`. -/
structure ListOptions where
  page : Option Nat := none
  limit : Option Nat := none
  sortBy : Option String := none
  sortOrder : Option String := none
deriving DecidableEq, Repr

/-- The `{clients, total, page, limit}` object `listClients` returns. -/
structure ListResult where
  clients : List IClient
  total : Nat
  page : Nat
  limit : Nat
deriving DecidableEq, Repr

/-- The cursor's `.limit(n)`: MongoDB treats a limit of 0 as "no
limit" and returns every remaining document; a positive limit caps the
result at `n` documents. -/
def cursorLimit (limit : Nat) (l : List IClient) : List IClient :=
  if limit = 0 then l else l.take limit

/-- `listClients`: defaults `page = 1`, `limit = 10`,
`sortBy = 'createdAt'`, `sortOrder = 'desc'`; `skip = (page-1)*limit`;
the cursor applies sort, skip and limit (with MongoDB's limit-0 =
unlimited semantics) while `countDocuments()` counts the whole
collection. -/
def listClients (options : ListOptions) (s : List IClient) : ListResult :=
  let page := options.page.getD 1
  let limit := options.limit.getD 10
  let sortBy := options.sortBy.getD "createdAt"
  let sortOrder := options.sortOrder.getD "desc"
  let skip := (page - 1) * limit
  { clients := cursorLimit limit ((sortClients sortBy sortOrder s).drop skip)
    total := s.length
    page := page
    limit := limit }

/-! ## The External Credential Bootstrap
(`fetchClientDataFromExternalAPI`).  The two HTTP responses of the
identity service are inputs (`ExternalEnv`), already decoded to the
level the source inspects: `payload = none` models a missing or falsy
`APIResponseText` (the source then takes the `null` branch), `some`
carries the doubly-parsed JSON payload.  The function also returns the
list of requests it actually sent, so that "the Auth call is never
made" is a statement about the result. -/

/-- The first row of the Login response's `Table`; each field may be
absent from the JSON object.  A numeric JSON value for `bid`/`uid` is
represented by its decimal string (JS `parseInt` stringifies its
argument anyway). -/
structure LoginRow where
  compGuid : Option String := none
  webPswd : Option String := none
  bid : Option String := none
  uid : Option String := none
deriving DecidableEq, Repr

/-- The decoded Login `APIResponseText`: `Table = none` models a
missing/falsy `Table` key, otherwise the array of rows. -/
structure LoginPayload where
  Table : Option (List LoginRow) := none
deriving DecidableEq, Repr

/-- The decoded Auth `APIResponseText`: the `sessionToken` field, which
may be absent. -/
structure AuthPayload where
  sessionToken : Option String := none
deriving DecidableEq, Repr

/-- One HTTP response as the source inspects it: `ok`/`status` of the
fetch `Response`, and the decoded `APIResponseText` payload (`none`
when the field is missing or falsy). -/
structure HttpResp (α : Type) where
  ok : Bool
  status : Nat
  payload : Option α
deriving DecidableEq, Repr

/-- The identity service's behaviour during one bootstrap invocation:
the response to the Login POST and the response to the Auth POST. -/
structure ExternalEnv where
  login : HttpResp LoginPayload
  auth : HttpResp AuthPayload
deriving DecidableEq, Repr

/-- The fixed `AppGuid` constant sent to Auth and emitted in the
record. -/
def appGuidConst : String := "77C8F2FD-B1DE-4CEA-BE74-FD943B3BD54D"

/-- A request sent to the identity service.  `loginReq` carries the
`mobile` parameter (`paramType 22`); `authReq` carries `CompID`,
`UserName`, `UserPswd` and `AppGuid` (`paramType 16/8/8/8`), in the
order the source builds them. -/
inductive ApiRequest where
  | loginReq (mobile : String)
  | authReq (compID userNm userPswd : Option String) (appGuid : String)
deriving DecidableEq, Repr

/-- Which of the `throw` statements of the handshake fired. -/
inductive FetchError where
  /-- "Failed to login with phone number. Status: ..." -/
  | loginHttpFailed (status : Nat)
  /-- "No login data found in login response" -/
  | noLoginData
  /-- "Failed to authenticate. Status: ..." -/
  | authHttpFailed (status : Nat)
  /-- "No session token received" -/
  | noSessionToken
deriving DecidableEq, Repr

/-- Errors of the Login phase (the spec's `LoginFailed`). -/
def FetchError.isLoginPhase : FetchError → Bool
  | .loginHttpFailed _ => true
  | .noLoginData => true
  | _ => false

/-- Errors of the Auth phase (the spec's `AuthFailed`). -/
def FetchError.isAuthPhase : FetchError → Bool
  | .authHttpFailed _ => true
  | .noSessionToken => true
  | _ => false

/-- The partial record emitted on success: exactly the object literal
at the end of `fetchClientDataFromExternalAPI`. -/
structure BootstrapRecord where
  bid : Int
  uid : Int
  mtcGroupID : Int
  compId : String
  userName : String
  password : String
  appGuid : String
deriving DecidableEq, Repr

/-- One hexadecimal digit of JS `parseInt`. -/
def hexDigitVal (c : Char) : Option Nat :=
  if c.isDigit then some (c.toNat - 48)
  else if 'a' ≤ c && c ≤ 'f' then some (c.toNat - 87)
  else if 'A' ≤ c && c ≤ 'F' then some (c.toNat - 55)
  else none

/-- Fold the longest prefix of base-`base` digits; the boolean records
whether at least one digit was consumed. -/
def takeDigits (base : Nat) : List Char → Nat → Nat × Bool
  | [], acc => (acc, false)
  | c :: cs, acc =>
    match hexDigitVal c with
    | none => (acc, false)
    | some v =>
      if v < base then ((takeDigits base cs (acc * base + v)).1, true)
      else (acc, false)

/-- JS `parseInt(s)` with no radix argument: skip leading whitespace,
optional sign, `0x`/`0X` selects base 16, then the longest digit
prefix; `none` is `NaN`. -/
def jsParseInt (s : String) : Option Int :=
  let cs := s.toList.dropWhile Char.isWhitespace
  let signAndRest : Int × List Char :=
    match cs with
    | '-' :: r => (-1, r)
    | '+' :: r => (1, r)
    | _ => (1, cs)
  let baseAndRest : Nat × List Char :=
    match signAndRest.2 with
    | '0' :: 'x' :: r => (16, r)
    | '0' :: 'X' :: r => (16, r)
    | _ => (10, signAndRest.2)
  match takeDigits baseAndRest.1 baseAndRest.2 0 with
  | (_, false) => none
  | (v, true) => some (signAndRest.1 * (v : Int))

/-- `parseInt(x) || 0`: a missing field (`parseInt(undefined)` is
`NaN`) and a non-numeric string both collapse to 0 (and so does an
explicit 0, which `||` also replaces by the right operand 0). -/
def jsParseIntD0 (o : Option String) : Int :=
  match o with
  | none => 0
  | some s =>
    match jsParseInt s with
    | none => 0
    | some n => n

/-- JS truthiness of `sessionToken` as an optional string: absent,
`null` and the empty string are falsy. -/
def jsTruthyStr : Option String → Bool
  | none => false
  | some s => !(s == "")

/-- The `sessionToken` the source extracts from the Auth response:
`authData.APIResponseText ? JSON.parse(...).sessionToken : null`. -/
def authSessionToken (env : ExternalEnv) : Option String :=
  match env.auth.payload with
  | none => none
  | some p => p.sessionToken

/-- The success record built from the first Login row. -/
def bootstrapRecordOf (loginInfo : LoginRow) : BootstrapRecord :=
  { bid := jsParseIntD0 loginInfo.bid
    uid := jsParseIntD0 loginInfo.uid
    mtcGroupID := 21
    compId := loginInfo.compGuid.getD ""
    userName := loginInfo.compGuid.getD ""
    password := loginInfo.webPswd.getD ""
    appGuid := appGuidConst }

/-- `fetchClientDataFromExternalAPI`: Login POST, check `ok`, decode,
require a non-empty `Table`, take its first row; Auth POST built from
that row (`CompID` and `UserName` both `compGuid`, `UserPswd` =
`webPswd`, constant `AppGuid`), check `ok`, require a truthy session
token; on success emit the partial record.  The second component is
the trace of requests actually sent. -/
def fetchClientDataFromExternalAPI (phoneNumber : String)
    (env : ExternalEnv) :
    Except FetchError BootstrapRecord × List ApiRequest :=
  let loginTrace := [ApiRequest.loginReq phoneNumber]
  if env.login.ok = false then
    (.error (.loginHttpFailed env.login.status), loginTrace)
  else
    match env.login.payload with
    | none => (.error .noLoginData, loginTrace)
    | some loginParsed =>
      match loginParsed.Table with
      | none => (.error .noLoginData, loginTrace)
      | some [] => (.error .noLoginData, loginTrace)
      | some (loginInfo :: _) =>
        let trace := loginTrace ++
          [ApiRequest.authReq loginInfo.compGuid loginInfo.compGuid
            loginInfo.webPswd appGuidConst]
        if env.auth.ok = false then
          (.error (.authHttpFailed env.auth.status), trace)
        else
          if jsTruthyStr (authSessionToken env) then
            (.ok (bootstrapRecordOf loginInfo), trace)
          else
            (.error .noSessionToken, trace)

/-- The partial record emitted by the Bootstrap, viewed as the
`Partial<IClient>` object handed to `createClient` by the decoupled
caller: the same seven keys, and no `reporterName`, `reporterPhone`,
`whatsappGroupName` or timestamp keys. -/
def bootstrapToPatch (r : BootstrapRecord) : ClientPatch :=
  { bid := some r.bid
    uid := some r.uid
    mtcGroupID := some r.mtcGroupID
    compId := some r.compId
    userName := some r.userName
    password := some r.password
    appGuid := some r.appGuid }

/-! ## Operation traces over the Record Store
Used to state lifecycle invariants (claim C2) over arbitrary sequences
of mutating operations. -/

/-- One mutating Record Store call, with the clock samples its `new
Date()` call sites observe. -/
inductive StoreOp where
  | createOp (data : ClientPatch) (newId : String) (nowIns nowRet : Nat)
  | updateOp (id : String) (upd : ClientPatch) (now : Nat)
  | deleteOp (id : String)
deriving DecidableEq, Repr

/-- The collection after one mutating call. -/
def applyOp (op : StoreOp) (s : List IClient) : List IClient :=
  match op with
  | .createOp d i n₁ n₂ => (createClient d i n₁ n₂ s).2
  | .updateOp i u n => (updateClient i u n s).2
  | .deleteOp i => (deleteClient i s).2

/-- The collection after a sequence of mutating calls. -/
def runOps : List StoreOp → List IClient → List IClient
  | [], s => s
  | op :: ops, s => runOps ops (applyOp op s)

/-- Side condition under which the lifecycle claims hold at one step:
an update payload leaves the `createdAt` key out (the source would
blindly `$set` it), and the update's clock sample is at or after every
creation time already in the store (the wall clock does not run
backwards). -/
def clockStepOk (op : StoreOp) (s : List IClient) : Bool :=
  match op with
  | .updateOp _ u n =>
      u.createdAt == none && s.all (fun d => decide (d.createdAt ≤ n))
  | _ => true

/-- `clockStepOk` holding along a whole trace. -/
def clockOk : List StoreOp → List IClient → Bool
  | [], _ => true
  | op :: ops, s => clockStepOk op s && clockOk ops (applyOp op s)

/-! ## Helper lemmas about the list-level store primitives -/

theorem mem_removeFirst {p : α → Bool} {l : List α} {y : α}
    (h : y ∈ (removeFirst p l).1) : y ∈ l := by
  induction l with
  | nil => simp [removeFirst] at h
  | cons x xs ih =>
    by_cases hp : p x
    · simp [removeFirst, hp] at h
      exact List.mem_cons_of_mem _ h
    · simp [removeFirst, hp] at h
      rcases h with h | h
      · simp [h]
      · exact List.mem_cons_of_mem _ (ih h)

theorem mem_updateFirst {p : α → Bool} {f : α → α} {l : List α} {y : α}
    (h : y ∈ (updateFirst p f l).1) :
    y ∈ l ∨ ∃ x, x ∈ l ∧ p x = true ∧ y = f x := by
  induction l with
  | nil => simp [updateFirst] at h
  | cons x xs ih =>
    by_cases hp : p x
    · simp [updateFirst, hp] at h
      rcases h with h | h
      · exact Or.inr ⟨x, List.mem_cons_self x xs, by simpa using hp, h⟩
      · exact Or.inl (List.mem_cons_of_mem _ h)
    · simp [updateFirst, hp] at h
      rcases h with h | h
      · exact Or.inl (by simp [h])
      · rcases ih h with h | ⟨z, hz, hpz, hy⟩
        · exact Or.inl (List.mem_cons_of_mem _ h)
        · exact Or.inr ⟨z, List.mem_cons_of_mem _ hz, hpz, hy⟩

theorem updateFirst_snd_some {p : α → Bool} {f : α → α} {l : List α} {y : α}
    (h : (updateFirst p f l).2 = some y) :
    ∃ x, x ∈ l ∧ p x = true ∧ y = f x := by
  induction l with
  | nil => simp [updateFirst] at h
  | cons x xs ih =>
    by_cases hp : p x
    · simp [updateFirst, hp] at h
      exact ⟨x, List.mem_cons_self x xs, by simpa using hp, h.symm⟩
    · simp [updateFirst, hp] at h
      rcases ih h with ⟨z, hz, hpz, hy⟩
      exact ⟨z, List.mem_cons_of_mem _ hz, hpz, hy⟩

/-- A successful `updateClient` call returns `applySet` of some record
of the store (the first match of the filter, in particular a member). -/
theorem updateClient_ok_shape {clientId : String} {u : ClientPatch}
    {now : Nat} {s : List IClient} {d' : IClient}
    (h : (updateClient clientId u now s).1 = .ok d') :
    ∃ x, x ∈ s ∧ d' = applySet u now x := by
  rw [updateClient] at h
  split at h
  · simp at h
  · split at h
    · simp at h
    · split at h
      · simp at h
      · rename_i heq
        simp only [Except.ok.injEq] at h
        obtain ⟨x, hx, _, hdd⟩ := updateFirst_snd_some heq
        exact ⟨x, hx, by rw [← h]; exact hdd⟩

theorem reqCheck_eq_nil_iff {α} (o : Option α) : reqCheck o = [] ↔ o ≠ none := by
  cases o <;> simp [reqCheck]

theorem phoneCheck_eq_nil_iff (o : Option String) :
    phoneCheck o = [] ↔ ∃ p, o = some p ∧ isIsraeliPhone p = true := by
  cases o with
  | none => simp [phoneCheck]
  | some p => by_cases hp : isIsraeliPhone p <;> simp [phoneCheck, hp]

/-! ## Concrete data used by witnesses and counterexamples -/

/-- A canonical well-formed ObjectId string. -/
def demoOid : String := "aaaaaaaaaaaaaaaaaaaaaaaa"

/-- A candidate that passes `ClientValidationSchema` in full. -/
def demoPatch : ClientPatch :=
  { bid := some 1, uid := some 2, mtcGroupID := some 3,
    reporterName := some "r", reporterPhone := some "+97250123456",
    compId := some "c", userName := some "u", password := some "p",
    appGuid := some "g" }

/-- The store after creating `demoPatch` at clock 10. -/
def demoStore : List IClient := (createClient demoPatch demoOid 10 10 []).2

/-- The identity-service behaviour of the spec's end-to-end scenario:
Login yields one row with `compGuid = "C1"`, `webPswd = "p"`,
`bid = "5"`, `uid = "9"`; Auth yields a valid session token. -/
def demoEnv : ExternalEnv :=
  ⟨⟨true, 200, some ⟨some [⟨some "C1", some "p", some "5", some "9"⟩]⟩⟩,
   ⟨true, 200, some ⟨some "tok"⟩⟩⟩

/-! ## Claim C1 (corrected) -/

/-- C1, as stated, is false: on a malformed identifier `getClient` does
not return the "not found" signal and `deleteClient` does not return
`false`; the `new ObjectId` constructor throws and the error
propagates. -/
theorem C1_counterexample :
    ¬ (getClient "not-an-id" [] = .ok none) ∧
    ¬ ((deleteClient "not-an-id" []).1 = .ok false) := by
  constructor <;> decide

/-- C1 amended: for every identifier string that is not a well-formed
store identifier, `getClient` and `deleteClient` raise the ObjectId
construction error (propagated unchanged) instead of treating the
identifier as "not found"; the store is left untouched. -/
theorem C1_malformed_id_raises (id : String) (s : List IClient)
    (h : isValidObjectIdString id = false) :
    getClient id s = .error .bsonError ∧
    deleteClient id s = (.error .bsonError, s) := by
  have hp : parseObjectId id = none := by simp [parseObjectId, h]
  exact ⟨by simp [getClient, hp], by simp [deleteClient, hp]⟩

/-- Witness for C1 amended at the concrete malformed id "not-an-id". -/
theorem C1_malformed_id_raises_witness :
    getClient "not-an-id" [] = .error .bsonError ∧
    deleteClient "not-an-id" [] = (.error .bsonError, []) :=
  C1_malformed_id_raises "not-an-id" [] (by decide)

/-! ## Claim C4 (confirmed) -/

/-- C4: a candidate missing any required field, or whose present
`reporterPhone` fails the Israeli-format regex, makes `createClient`
fail with the validation error carrying a non-empty message list, and
no write occurs: the collection is unchanged, hence so is the total
reported by `listClients`. -/
theorem C4_invalid_create_rejected (cand : ClientPatch) (newId : String)
    (nowIns nowRet : Nat) (s : List IClient)
    (h : cand.bid = none ∨ cand.uid = none ∨ cand.mtcGroupID = none ∨
         cand.reporterName = none ∨ cand.reporterPhone = none ∨
         cand.compId = none ∨ cand.userName = none ∨ cand.password = none ∨
         cand.appGuid = none ∨
         ∃ p, cand.reporterPhone = some p ∧ isIsraeliPhone p = false) :
    (∃ msgs, msgs ≠ [] ∧
        (createClient cand newId nowIns nowRet s).1 =
          .error (.validationError msgs)) ∧
    (createClient cand newId nowIns nowRet s).2 = s ∧
    (listClients {} (createClient cand newId nowIns nowRet s).2).total =
      (listClients {} s).total := by
  have hne : clientValidationErrors cand ≠ [] := by
    intro hnil
    rw [clientValidationErrors] at hnil
    simp only [List.append_eq_nil, reqCheck_eq_nil_iff,
      phoneCheck_eq_nil_iff] at hnil
    obtain ⟨⟨⟨⟨⟨⟨⟨⟨hb, hu⟩, hm⟩, hr⟩, hp⟩, hc⟩, hun⟩, hpw⟩, hg⟩ := hnil
    rcases h with h|h|h|h|h|h|h|h|h|⟨q, hq, hbad⟩ <;> simp_all
  rcases hv : clientValidationErrors cand with _ | ⟨m, ms⟩
  · exact absurd hv hne
  · refine ⟨⟨m :: ms, by simp, ?_⟩, ?_, ?_⟩ <;> simp [createClient, hv]

/-- Witness for C4: the empty candidate (every field absent). -/
theorem C4_invalid_create_rejected_witness :
    (∃ msgs, msgs ≠ [] ∧
        (createClient {} "x" 0 0 []).1 = .error (.validationError msgs)) ∧
    (createClient {} "x" 0 0 []).2 = [] ∧
    (listClients {} (createClient {} "x" 0 0 []).2).total =
      (listClients {} ([] : List IClient)).total :=
  C4_invalid_create_rejected {} "x" 0 0 [] (Or.inl rfl)

/-! ## Claim C5 (corrected) -/

/-- C5, as stated, is false at limit 0: the source passes the limit
straight to the cursor's `.limit(limit)` and MongoDB treats 0 as "no
limit", so requesting page 1 with limit 0 on a one-record store
returns that record — a page of length 1, not a slice of length at
most 0. -/
theorem C5_counterexample :
    (listClients { limit := some 0 } demoStore).clients.length = 1 ∧
    (listClients { limit := some 0 } demoStore).limit = 0 ∧
    ¬ (listClients { limit := some 0 } demoStore).clients.length ≤
        (listClients { limit := some 0 } demoStore).limit := by
  refine ⟨?_, ?_, ?_⟩ <;> decide

/-- C5 amended: for every page ≥ 1 and every positive limit,
`listClients` returns the slice of the sorted sequence starting at
offset (page−1)·limit of length at most limit, the total equals the
full unfiltered count whatever the page and limit are, and the page
and limit are echoed back; absent options default to page 1, limit 10,
sortBy `createdAt`, sortOrder `desc` (visible in the `getD` defaults
below).  A limit of 0 is excluded: the cursor then applies no limit at
all. -/
theorem C5_list_pagination (options : ListOptions) (s : List IClient)
    (_hp : 1 ≤ options.page.getD 1) (hl : 1 ≤ options.limit.getD 10) :
    (listClients options s).clients =
      ((sortClients (options.sortBy.getD "createdAt")
            (options.sortOrder.getD "desc") s).drop
          ((options.page.getD 1 - 1) * options.limit.getD 10)).take
        (options.limit.getD 10) ∧
    (listClients options s).clients.length ≤ options.limit.getD 10 ∧
    (listClients options s).total = s.length ∧
    (listClients options s).page = options.page.getD 1 ∧
    (listClients options s).limit = options.limit.getD 10 := by
  have hne : options.limit.getD 10 ≠ 0 := Nat.one_le_iff_ne_zero.mp hl
  have hclients : (listClients options s).clients =
      ((sortClients (options.sortBy.getD "createdAt")
            (options.sortOrder.getD "desc") s).drop
          ((options.page.getD 1 - 1) * options.limit.getD 10)).take
        (options.limit.getD 10) := by
    simp [listClients, cursorLimit, hne]
  refine ⟨hclients, ?_, rfl, rfl, rfl⟩
  rw [hclients]
  exact List.length_take_le _ _

/-- Witness for C5 amended at the all-absent options on the demo
store. -/
theorem C5_list_pagination_witness :
    (listClients {} demoStore).clients =
      ((sortClients "createdAt" "desc" demoStore).drop 0).take 10 ∧
    (listClients {} demoStore).clients.length ≤ 10 ∧
    (listClients {} demoStore).total = demoStore.length ∧
    (listClients {} demoStore).page = 1 ∧
    (listClients {} demoStore).limit = 10 :=
  C5_list_pagination {} demoStore (by decide) (by decide)

/-! ## Claim C9 (confirmed) -/

/-- C9: when an update whose payload contains only `reporterName`
succeeds, the resulting record equals a prior record of the store with
only the `reporterName` and `updatedAt` fields changed. -/
theorem C9_update_name_frame (clientId name : String) (now : Nat)
    (s : List IClient) (d' : IClient)
    (h : (updateClient clientId { reporterName := some name } now s).1 =
      .ok d') :
    ∃ d, d ∈ s ∧ d' = { d with reporterName := name, updatedAt := now } := by
  obtain ⟨x, hx, hd⟩ := updateClient_ok_shape h
  exact ⟨x, hx, by rw [hd]; rfl⟩

/-- Witness for C9: renaming the reporter of the demo store's record. -/
theorem C9_update_name_frame_witness :
    ∃ d, d ∈ demoStore ∧
      ({ id := demoOid, whatsappGroupName := none, bid := 1, uid := 2,
         mtcGroupID := 3, reporterName := "n2",
         reporterPhone := "+97250123456", compId := "c", userName := "u",
         password := "p", appGuid := "g", createdAt := 10,
         updatedAt := 12 } : IClient) =
        { d with reporterName := "n2", updatedAt := 12 } :=
  C9_update_name_frame demoOid "n2" 12 demoStore _ (by decide)

/-! ## Claim C10 (confirmed) -/

/-- C10: the partial record of a fully successful Bootstrap carries no
`reporterName`, `reporterPhone` or `whatsappGroupName` key, so handing
it unaugmented to `createClient` always fails with the validation
error ("Required" for `reporterName` and for `reporterPhone`) and
writes nothing. -/
theorem C10_bootstrap_output_not_insertable (phone : String)
    (env : ExternalEnv) (rec : BootstrapRecord) (newId : String)
    (nowIns nowRet : Nat) (s : List IClient)
    (_h : (fetchClientDataFromExternalAPI phone env).1 = .ok rec) :
    createClient (bootstrapToPatch rec) newId nowIns nowRet s =
      (.error (.validationError [requiredMsg, requiredMsg]), s) := rfl

/-- Witness for C10: the record produced by the demo environment. -/
theorem C10_bootstrap_output_not_insertable_witness :
    createClient
        (bootstrapToPatch ⟨5, 9, 21, "C1", "C1", "p", appGuidConst⟩)
        demoOid 0 0 [] =
      (.error (.validationError [requiredMsg, requiredMsg]), []) :=
  C10_bootstrap_output_not_insertable "+972501234567" demoEnv
    ⟨5, 9, 21, "C1", "C1", "p", appGuidConst⟩ demoOid 0 0 [] (by decide)

/-! ## Claim C3 (confirmed) -/

/-- C3: when both handshake phases succeed, the emitted partial record
is exactly `{bid, uid, mtcGroupID: 21, compId, userName, password,
appGuid}` with `bid`/`uid` the login row's values parsed as integers
(0 when missing or non-numeric), `compId` and `userName` both the
row's `compGuid`, `password` the row's `webPswd`, and the fixed
`appGuid` constant; the trace is the Login request then the Auth
request. -/
theorem C3_success_record (phone : String) (env : ExternalEnv)
    (pl : LoginPayload) (row : LoginRow) (rest : List LoginRow)
    (h1 : env.login.ok = true) (h2 : env.login.payload = some pl)
    (h3 : pl.Table = some (row :: rest)) (h4 : env.auth.ok = true)
    (h5 : jsTruthyStr (authSessionToken env) = true) :
    fetchClientDataFromExternalAPI phone env =
      (.ok { bid := jsParseIntD0 row.bid, uid := jsParseIntD0 row.uid,
             mtcGroupID := 21, compId := row.compGuid.getD "",
             userName := row.compGuid.getD "",
             password := row.webPswd.getD "", appGuid := appGuidConst },
       [.loginReq phone,
        .authReq row.compGuid row.compGuid row.webPswd appGuidConst]) := by
  simp [fetchClientDataFromExternalAPI, h1, h2, h3, h4, h5,
    bootstrapRecordOf]

/-- Witness for C3: the spec's end-to-end scenario; the record is
`{bid: 5, uid: 9, mtcGroupID: 21, compId: "C1", userName: "C1",
password: "p", appGuid: the constant}`. -/
theorem C3_success_record_witness :
    fetchClientDataFromExternalAPI "+972501234567" demoEnv =
      (.ok ⟨5, 9, 21, "C1", "C1", "p", appGuidConst⟩,
       [.loginReq "+972501234567",
        .authReq (some "C1") (some "C1") (some "p") appGuidConst]) := by
  rw [C3_success_record "+972501234567" demoEnv
    ⟨some [⟨some "C1", some "p", some "5", some "9"⟩]⟩
    ⟨some "C1", some "p", some "5", some "9"⟩ [] rfl rfl rfl rfl
    (by decide)]
  decide

/-! ## Claim C6 (confirmed) -/

/-- C6: whenever the Login phase yields an HTTP-level failure or a
missing/empty result table, the bootstrap fails with a Login-phase
error and the request trace is the Login request alone: the Auth
request is never sent. -/
theorem C6_login_failure_no_auth (phone : String) (env : ExternalEnv)
    (h : env.login.ok = false ∨ env.login.payload = none ∨
         ∃ pl, env.login.payload = some pl ∧
           (pl.Table = none ∨ pl.Table = some [])) :
    (∃ e, (fetchClientDataFromExternalAPI phone env).1 = .error e ∧
        e.isLoginPhase = true) ∧
    (fetchClientDataFromExternalAPI phone env).2 = [.loginReq phone] := by
  by_cases hok : env.login.ok = false
  · exact ⟨⟨.loginHttpFailed env.login.status,
      by simp [fetchClientDataFromExternalAPI, hok], rfl⟩,
      by simp [fetchClientDataFromExternalAPI, hok]⟩
  · rcases h with h | h | ⟨pl, hpl, ht⟩
    · exact absurd h hok
    · exact ⟨⟨.noLoginData,
        by simp [fetchClientDataFromExternalAPI, hok, h], rfl⟩,
        by simp [fetchClientDataFromExternalAPI, hok, h]⟩
    · rcases ht with ht | ht
      · exact ⟨⟨.noLoginData,
          by simp [fetchClientDataFromExternalAPI, hok, hpl, ht], rfl⟩,
          by simp [fetchClientDataFromExternalAPI, hok, hpl, ht]⟩
      · exact ⟨⟨.noLoginData,
          by simp [fetchClientDataFromExternalAPI, hok, hpl, ht], rfl⟩,
          by simp [fetchClientDataFromExternalAPI, hok, hpl, ht]⟩

/-- Witness for C6: a Login response with an empty `Table`. -/
theorem C6_login_failure_no_auth_witness :
    (∃ e, (fetchClientDataFromExternalAPI "+972501234567"
        ⟨⟨true, 200, some ⟨some []⟩⟩, ⟨true, 200, none⟩⟩).1 = .error e ∧
        e.isLoginPhase = true) ∧
    (fetchClientDataFromExternalAPI "+972501234567"
        ⟨⟨true, 200, some ⟨some []⟩⟩, ⟨true, 200, none⟩⟩).2 =
      [.loginReq "+972501234567"] :=
  C6_login_failure_no_auth "+972501234567"
    ⟨⟨true, 200, some ⟨some []⟩⟩, ⟨true, 200, none⟩⟩
    (Or.inr (Or.inr ⟨⟨some []⟩, rfl, Or.inr rfl⟩))

/-! ## Claim C7 (confirmed) -/

/-- C7: after a successful Login phase, an Auth HTTP-level failure or a
missing session token makes the bootstrap fail with an Auth-phase
error and emit no partial record; and whenever the bootstrap does
succeed, the record it returns is a function of the login row alone
(`bootstrapRecordOf`), so the session token is never part of it. -/
theorem C7_auth_failure_no_record (phone : String) (env : ExternalEnv)
    (pl : LoginPayload) (row : LoginRow) (rest : List LoginRow)
    (h1 : env.login.ok = true) (h2 : env.login.payload = some pl)
    (h3 : pl.Table = some (row :: rest)) :
    ((env.auth.ok = false ∨ jsTruthyStr (authSessionToken env) = false) →
      (∃ e, (fetchClientDataFromExternalAPI phone env).1 = .error e ∧
          e.isAuthPhase = true) ∧
      ∀ r, (fetchClientDataFromExternalAPI phone env).1 ≠ .ok r) ∧
    (∀ r, (fetchClientDataFromExternalAPI phone env).1 = .ok r →
      r = bootstrapRecordOf row) := by
  constructor
  · intro hfail
    by_cases hao : env.auth.ok = false
    · refine ⟨⟨.authHttpFailed env.auth.status,
        by simp [fetchClientDataFromExternalAPI, h1, h2, h3, hao], rfl⟩, ?_⟩
      intro r hrec
      rw [show (fetchClientDataFromExternalAPI phone env).1 =
          .error (.authHttpFailed env.auth.status) from
        by simp [fetchClientDataFromExternalAPI, h1, h2, h3, hao]] at hrec
      exact Except.noConfusion hrec
    · have htok : jsTruthyStr (authSessionToken env) = false := by
        rcases hfail with hfail | hfail
        · exact absurd hfail hao
        · exact hfail
      refine ⟨⟨.noSessionToken,
        by simp [fetchClientDataFromExternalAPI, h1, h2, h3, hao, htok],
        rfl⟩, ?_⟩
      intro r hrec
      rw [show (fetchClientDataFromExternalAPI phone env).1 =
          .error .noSessionToken from
        by simp [fetchClientDataFromExternalAPI, h1, h2, h3, hao, htok]] at hrec
      exact Except.noConfusion hrec
  · intro r hrec
    by_cases hao : env.auth.ok = false
    · rw [show (fetchClientDataFromExternalAPI phone env).1 =
          .error (.authHttpFailed env.auth.status) from
        by simp [fetchClientDataFromExternalAPI, h1, h2, h3, hao]] at hrec
      exact Except.noConfusion hrec
    · by_cases htok : jsTruthyStr (authSessionToken env) = true
      · rw [show (fetchClientDataFromExternalAPI phone env).1 =
            .ok (bootstrapRecordOf row) from
          by simp [fetchClientDataFromExternalAPI, h1, h2, h3, hao, htok]] at hrec
        exact (Except.ok.injEq _ _).mp hrec.symm ▸ rfl
      · have htok' : jsTruthyStr (authSessionToken env) = false := by
          simpa using htok
        rw [show (fetchClientDataFromExternalAPI phone env).1 =
            .error .noSessionToken from
          by simp [fetchClientDataFromExternalAPI, h1, h2, h3, hao, htok']] at hrec
        exact Except.noConfusion hrec

/-- Witness for C7: Login succeeds with one row, Auth returns a payload
without a session token. -/
theorem C7_auth_failure_no_record_witness :
    ((⟨⟨true, 200, some ⟨some [⟨some "C1", some "p", some "5", some "9"⟩]⟩⟩,
        ⟨true, 200, some ⟨none⟩⟩⟩ : ExternalEnv).auth.ok = false ∨
      jsTruthyStr (authSessionToken
        ⟨⟨true, 200, some ⟨some [⟨some "C1", some "p", some "5", some "9"⟩]⟩⟩,
         ⟨true, 200, some ⟨none⟩⟩⟩) = false →
      (∃ e, (fetchClientDataFromExternalAPI "+972501234567"
          ⟨⟨true, 200, some ⟨some [⟨some "C1", some "p", some "5", some "9"⟩]⟩⟩,
           ⟨true, 200, some ⟨none⟩⟩⟩).1 = .error e ∧ e.isAuthPhase = true) ∧
      ∀ r, (fetchClientDataFromExternalAPI "+972501234567"
          ⟨⟨true, 200, some ⟨some [⟨some "C1", some "p", some "5", some "9"⟩]⟩⟩,
           ⟨true, 200, some ⟨none⟩⟩⟩).1 ≠ .ok r) ∧
    (∀ r, (fetchClientDataFromExternalAPI "+972501234567"
        ⟨⟨true, 200, some ⟨some [⟨some "C1", some "p", some "5", some "9"⟩]⟩⟩,
         ⟨true, 200, some ⟨none⟩⟩⟩).1 = .ok r →
      r = bootstrapRecordOf ⟨some "C1", some "p", some "5", some "9"⟩) :=
  C7_auth_failure_no_record "+972501234567"
    ⟨⟨true, 200, some ⟨some [⟨some "C1", some "p", some "5", some "9"⟩]⟩⟩,
     ⟨true, 200, some ⟨none⟩⟩⟩
    ⟨some [⟨some "C1", some "p", some "5", some "9"⟩]⟩
    ⟨some "C1", some "p", some "5", some "9"⟩ [] rfl rfl rfl

/-! ## Claim C2 (corrected) -/

/-- Membership in the store after one mutating operation: the document
was already present, or is the freshly inserted create document, or is
`$set` applied to a present document. -/
theorem mem_applyOp {op : StoreOp} {s : List IClient} {d' : IClient}
    (h : d' ∈ applyOp op s) :
    d' ∈ s ∨
    (∃ data newId n₁ n₂, op = .createOp data newId n₁ n₂ ∧
        d' = mkStoredClient data newId n₁) ∨
    (∃ id u n x, op = .updateOp id u n ∧ x ∈ s ∧ d' = applySet u n x) := by
  cases op with
  | createOp data newId n₁ n₂ =>
    rw [applyOp, createClient] at h
    split at h
    · rcases List.mem_append.mp h with h | h
      · exact Or.inl h
      · exact Or.inr (Or.inl ⟨data, newId, n₁, n₂, rfl, by simpa using h⟩)
    · exact Or.inl h
  | updateOp id u n =>
    rw [applyOp, updateClient] at h
    split at h
    · exact Or.inl h
    · split at h
      · exact Or.inl h
      · split at h
        all_goals
          rcases mem_updateFirst h with h | ⟨x, hx, _, hxy⟩
        · exact Or.inl h
        · exact Or.inr (Or.inr ⟨id, u, n, x, rfl, hx, hxy⟩)
        · exact Or.inl h
        · exact Or.inr (Or.inr ⟨id, u, n, x, rfl, hx, hxy⟩)
  | deleteOp id =>
    rw [applyOp, deleteClient] at h
    split at h
    · exact Or.inl h
    · exact Or.inl (mem_removeFirst h)

/-- Under `clockStepOk`, one operation preserves identities and
creation stamps: every document of the next store inherits `id` and
`createdAt` from a document of the previous store, unless it is the
document a create operation just inserted. -/
theorem applyOp_origin {op : StoreOp} {s : List IClient} {d' : IClient}
    (hop : clockStepOk op s = true) (h : d' ∈ applyOp op s) :
    (∃ d, d ∈ s ∧ d'.id = d.id ∧ d'.createdAt = d.createdAt) ∨
    (∃ data newId n₁ n₂, op = .createOp data newId n₁ n₂ ∧
        d'.id = newId ∧ d'.createdAt = n₁) := by
  rcases mem_applyOp h with h | ⟨data, newId, n₁, n₂, rfl, rfl⟩ |
    ⟨id, u, n, x, rfl, hx, rfl⟩
  · exact Or.inl ⟨d', h, rfl, rfl⟩
  · exact Or.inr ⟨data, newId, n₁, n₂, rfl, rfl, rfl⟩
  · rw [clockStepOk] at hop
    simp only [Bool.and_eq_true, beq_iff_eq] at hop
    exact Or.inl ⟨x, hx, rfl, by simp [applySet, hop.1]⟩

/-- Under `clockStepOk`, one operation preserves the invariant
`createdAt ≤ updatedAt`. -/
theorem applyOp_createdAt_le {op : StoreOp} {s : List IClient}
    (hop : clockStepOk op s = true)
    (hs : ∀ d ∈ s, d.createdAt ≤ d.updatedAt) :
    ∀ d' ∈ applyOp op s, d'.createdAt ≤ d'.updatedAt := by
  intro d' hd'
  rcases mem_applyOp hd' with h | ⟨data, newId, n₁, n₂, _, rfl⟩ |
    ⟨id, u, n, x, hop', hx, rfl⟩
  · exact hs d' h
  · exact le_refl _
  · subst hop'
    rw [clockStepOk] at hop
    simp only [Bool.and_eq_true, beq_iff_eq, List.all_eq_true,
      decide_eq_true_eq] at hop
    show (applySet u n x).createdAt ≤ (applySet u n x).updatedAt
    simp only [applySet, hop.1, Option.getD_none]
    exact hop.2 x hx

/-- Trace version of `applyOp_createdAt_le`. -/
theorem runOps_createdAt_le {ops : List StoreOp} {s : List IClient}
    (hck : clockOk ops s = true)
    (hs : ∀ d ∈ s, d.createdAt ≤ d.updatedAt) :
    ∀ d' ∈ runOps ops s, d'.createdAt ≤ d'.updatedAt := by
  induction ops generalizing s with
  | nil => exact hs
  | cons op ops ih =>
    rw [clockOk, Bool.and_eq_true] at hck
    exact ih hck.2 (applyOp_createdAt_le hck.1 hs)

/-- Trace version of `applyOp_origin`. -/
theorem runOps_origin {ops : List StoreOp} {s : List IClient}
    {d' : IClient} (hck : clockOk ops s = true)
    (h : d' ∈ runOps ops s) :
    (∃ d, d ∈ s ∧ d'.id = d.id ∧ d'.createdAt = d.createdAt) ∨
    (∃ data newId n₁ n₂, StoreOp.createOp data newId n₁ n₂ ∈ ops ∧
        d'.id = newId ∧ d'.createdAt = n₁) := by
  induction ops generalizing s with
  | nil => exact Or.inl ⟨d', h, rfl, rfl⟩
  | cons op ops ih =>
    rw [clockOk, Bool.and_eq_true] at hck
    rcases ih hck.2 h with ⟨d, hd, hid, hca⟩ |
      ⟨data, newId, n₁, n₂, hmem, hid, hca⟩
    · rcases applyOp_origin hck.1 hd with ⟨d₀, hd₀, hid₀, hca₀⟩ |
        ⟨data, newId, n₁, n₂, rfl, hid₀, hca₀⟩
      · exact Or.inl ⟨d₀, hd₀, hid.trans hid₀, hca.trans hca₀⟩
      · exact Or.inr ⟨data, newId, n₁, n₂, List.mem_cons_self _ _,
          hid.trans hid₀, hca.trans hca₀⟩
    · exact Or.inr ⟨data, newId, n₁, n₂, List.mem_cons_of_mem _ hmem,
        hid, hca⟩

/-- C2, as stated, is false: an update whose payload carries a
`createdAt` key passes partial validation (zod ignores the unknown
key) but the source spreads the raw payload into `$set`, so the stored
`createdAt` changes after creation — here from 10 to 99 — and the
refreshed `updatedAt` (11) even drops below the new `createdAt`
(99). -/
theorem C2_counterexample :
    (runOps [StoreOp.createOp demoPatch demoOid 10 10] []).map
        IClient.createdAt = [10] ∧
    (runOps [StoreOp.createOp demoPatch demoOid 10 10,
        StoreOp.updateOp demoOid { createdAt := some 99 } 11] []).map
        IClient.createdAt = [99] ∧
    (runOps [StoreOp.createOp demoPatch demoOid 10 10,
        StoreOp.updateOp demoOid { createdAt := some 99 } 11] []).map
        IClient.updatedAt = [11] ∧
    ¬ (99 : Nat) = 10 ∧ ¬ (99 : Nat) ≤ 11 := by
  refine ⟨?_, ?_, ?_, ?_, ?_⟩ <;> decide

/-- C2 amended: provided no update payload carries a `createdAt` key
and the clock never runs behind the store (`clockOk`), then along any
sequence of create/update/delete operations every surviving document
keeps the `id` and `createdAt` it was created with, `createdAt ≤
updatedAt` is invariant, and every successful update refreshes
`updatedAt` to that operation's clock sample. -/
theorem C2_lifecycle (ops : List StoreOp) (s : List IClient)
    (hck : clockOk ops s = true) :
    (∀ d' ∈ runOps ops s,
        (∃ d, d ∈ s ∧ d'.id = d.id ∧ d'.createdAt = d.createdAt) ∨
        (∃ data newId n₁ n₂, StoreOp.createOp data newId n₁ n₂ ∈ ops ∧
            d'.id = newId ∧ d'.createdAt = n₁)) ∧
    ((∀ d ∈ s, d.createdAt ≤ d.updatedAt) →
        ∀ d' ∈ runOps ops s, d'.createdAt ≤ d'.updatedAt) ∧
    (∀ id u now s₁ d', (updateClient id u now s₁).1 = .ok d' →
        d'.updatedAt = now) :=
  ⟨fun _ h => runOps_origin hck h,
   fun hs => runOps_createdAt_le hck hs,
   fun _ _ _ _ _ h => by
     obtain ⟨x, _, rfl⟩ := updateClient_ok_shape h
     rfl⟩

/-- Witness for C2 amended: create then rename, with a forward-running
clock. -/
theorem C2_lifecycle_witness :
    (∀ d' ∈ runOps [StoreOp.createOp demoPatch demoOid 5 5,
        StoreOp.updateOp demoOid { reporterName := some "x" } 7] [],
        (∃ d, d ∈ ([] : List IClient) ∧ d'.id = d.id ∧
            d'.createdAt = d.createdAt) ∨
        (∃ data newId n₁ n₂,
            StoreOp.createOp data newId n₁ n₂ ∈
              [StoreOp.createOp demoPatch demoOid 5 5,
               StoreOp.updateOp demoOid { reporterName := some "x" } 7] ∧
            d'.id = newId ∧ d'.createdAt = n₁)) ∧
    ((∀ d ∈ ([] : List IClient), d.createdAt ≤ d.updatedAt) →
        ∀ d' ∈ runOps [StoreOp.createOp demoPatch demoOid 5 5,
            StoreOp.updateOp demoOid { reporterName := some "x" } 7] [],
          d'.createdAt ≤ d'.updatedAt) ∧
    (∀ id u now s₁ d', (updateClient id u now s₁).1 = .ok d' →
        d'.updatedAt = now) :=
  C2_lifecycle [StoreOp.createOp demoPatch demoOid 5 5,
    StoreOp.updateOp demoOid { reporterName := some "x" } 7] []
    (by decide)

/-! ## Claim C8 (corrected) -/

/-- C8, as stated, is false on the clock behaviour the source allows:
`createClient` rebuilds its return value with two fresh `new Date()`
calls (after the insert's own two), so when the clock advances between
insert (10) and return (11) the returned record differs from the
stored record that `getClient` then yields. -/
theorem C8_counterexample :
    (createClient demoPatch demoOid 10 11 []).1 =
      .ok (mkStoredClient demoPatch demoOid 11) ∧
    getClient demoOid (createClient demoPatch demoOid 10 11 []).2 =
      .ok (some (mkStoredClient demoPatch demoOid 10)) ∧
    mkStoredClient demoPatch demoOid 11 ≠
      mkStoredClient demoPatch demoOid 10 := by
  refine ⟨?_, ?_, ?_⟩ <;> decide

/-- C8 amended: for a valid candidate and a fresh canonical identifier,
`create` stores exactly the candidate plus the assigned `id` and the
insert-time `createdAt`/`updatedAt`, and `getById` on the returned
identifier yields that stored record; the record `create` itself
returns carries the same data but return-time timestamps, so it equals
the stored record exactly when the clock did not advance in between. -/
theorem C8_create_then_get (cand : ClientPatch) (newId : String)
    (n₁ n₂ : Nat) (s : List IClient)
    (hv : clientValidationErrors cand = [])
    (hid : parseObjectId newId = some newId)
    (hfresh : ∀ d ∈ s, d.id ≠ newId) :
    (createClient cand newId n₁ n₂ s).1 =
      .ok (mkStoredClient cand newId n₂) ∧
    (createClient cand newId n₁ n₂ s).2 =
      s ++ [mkStoredClient cand newId n₁] ∧
    getClient newId (createClient cand newId n₁ n₂ s).2 =
      .ok (some (mkStoredClient cand newId n₁)) ∧
    (n₁ = n₂ → (createClient cand newId n₁ n₂ s).1 =
      .ok (mkStoredClient cand newId n₁)) := by
  have h1 : (createClient cand newId n₁ n₂ s).1 =
      .ok (mkStoredClient cand newId n₂) := by
    simp [createClient, hv]
  have h2 : (createClient cand newId n₁ n₂ s).2 =
      s ++ [mkStoredClient cand newId n₁] := by
    simp [createClient, hv]
  refine ⟨h1, h2, ?_, fun hn => by rw [h1, hn]⟩
  have hnone : s.find? (fun d => d.id == newId) = none :=
    List.find?_eq_none.mpr (fun d hd => by simpa using hfresh d hd)
  simp [getClient, hid, h2, List.find?_append, hnone, mkStoredClient]

/-- Witness for C8 amended: the demo candidate at a constant clock. -/
theorem C8_create_then_get_witness :
    (createClient demoPatch demoOid 10 10 []).1 =
      .ok (mkStoredClient demoPatch demoOid 10) ∧
    (createClient demoPatch demoOid 10 10 []).2 =
      [] ++ [mkStoredClient demoPatch demoOid 10] ∧
    getClient demoOid (createClient demoPatch demoOid 10 10 []).2 =
      .ok (some (mkStoredClient demoPatch demoOid 10)) ∧
    ((10 : Nat) = 10 → (createClient demoPatch demoOid 10 10 []).1 =
      .ok (mkStoredClient demoPatch demoOid 10)) :=
  C8_create_then_get demoPatch demoOid 10 10 [] (by decide) (by decide)
    (by decide)
